import Mathlib

/-!
Shallow embedding of `custom_components/dingz/api_v2.py`: the JSON decoding
layer (schema records with `from_json` decoders) and the device client
(`DingzSessionV2`), with the HTTP transport abstracted away.  A client read
operation is modelled as a function from the already-parsed JSON response body
to its result; a write operation as the pair of the request path and the list
of body parameters it sends, in insertion order.  Python exceptions become
`Except` errors; Python `None` becomes `Option.none`; JSON numbers are
rationals.
-/

/-- Raw JSON values as produced by the JSON parser of the transport.  Objects keep
their entries in insertion order, matching Python dict semantics. -/
inductive JSON where
  | null
  | bool (b : Bool)
  | num (q : ℚ)
  | str (s : String)
  | arr (elems : List JSON)
  | obj (entries : List (String × JSON))

/-- Lookup of a key in a JSON-object entry list (Python `data[key]` /
`data.get(key)`); keys are unique in a parsed object, so first match wins. -/
def lookupEntry : List (String × JSON) → String → Option JSON
  | [], _ => none
  | (k, v) :: rest, key => if k = key then some v else lookupEntry rest key

/-- Failures raised while converting raw JSON into a typed record, covering the
Python exceptions the decoding layer can raise (`KeyError` on a missing dict
key, `TypeError`-style shape mismatches). -/
inductive DecodeError where
  | missingKey (k : String)
  | typeMismatch (expected : String) (got : JSON)

/-- Python `data[key]` on a dict: the value, or `KeyError`. -/
def reqField (data : List (String × JSON)) (k : String) : Except DecodeError JSON :=
  match lookupEntry data k with
  | some v => .ok v
  | none => .error (.missingKey k)

/-- Modelled from the spec: the generic field-by-field decoder provided by the
`FromJSON` base class in `api.py` (not under `src/`) fails with a decode error
when a field "is missing or has an incompatible JSON type"; this is the
boolean-typed field check. -/
def JSON.asBool : JSON → Except DecodeError Bool
  | .bool b => .ok b
  | j => .error (.typeMismatch "bool" j)

/-- Modelled from the spec: integer-typed field check of the generic decoder
in `api.py` (not under `src/`); a JSON number is an `int` when it has no
fractional part. -/
def JSON.asInt : JSON → Except DecodeError ℤ
  | .num q => if q.den = 1 then .ok q.num else .error (.typeMismatch "int" (.num q))
  | j => .error (.typeMismatch "int" j)

/-- Modelled from the spec: float-typed field check of the generic decoder in
`api.py` (not under `src/`). -/
def JSON.asFloat : JSON → Except DecodeError ℚ
  | .num q => .ok q
  | j => .error (.typeMismatch "float" j)

/-- Modelled from the spec: string-typed field check of the generic decoder in
`api.py` (not under `src/`). -/
def JSON.asStr : JSON → Except DecodeError String
  | .str s => .ok s
  | j => .error (.typeMismatch "str" j)

/-- A JSON value that must be a list (iterating over a non-list raises). -/
def JSON.asList : JSON → Except DecodeError (List JSON)
  | .arr l => .ok l
  | j => .error (.typeMismatch "list" j)

/-- Required field of scalar type: the key must be present and its value must
decode. -/
def getField (data : List (String × JSON)) (k : String)
    (dec : JSON → Except DecodeError α) : Except DecodeError α := do
  let v ← reqField data k
  dec v

/-- Required-but-nullable field (a Python `Optional[...]` field without a
default): the key must be present; a `null` value decodes to `none`. -/
def getNullableField (data : List (String × JSON)) (k : String)
    (dec : JSON → Except DecodeError α) : Except DecodeError (Option α) := do
  let v ← reqField data k
  match v with
  | .null => pure none
  | v => some <$> dec v

/-- Defaulted optional field (a Python `Optional[...] = None` field): an absent
key or a `null` value decodes to `none`. -/
def getDefaultedField (data : List (String × JSON)) (k : String)
    (dec : JSON → Except DecodeError α) : Except DecodeError (Option α) :=
  match lookupEntry data k with
  | none => .ok none
  | some .null => .ok none
  | some v => some <$> dec v

/-- The Python built-in `round`: round half to even (bankers rounding), on the
rational value of the argument.  With `n = ⌊q⌋` the fractional part of `q` is
`(q.num - n * q.den) / q.den`, so comparing `2 * (q.num - n * q.den)` with
`q.den` compares the fractional part with one half using only integer
arithmetic. -/
def pyround (q : ℚ) : ℤ :=
  let n : ℤ := ⌊q⌋
  let m : ℤ := q.num - n * q.den
  if 2 * m < (q.den : ℤ) then n
  else if (q.den : ℤ) < 2 * m then n + 1
  else if n % 2 = 0 then n else n + 1

namespace DingzSessionV2

/-- The body and headers built by `DingzSessionV2.__post_request` from the
keyword parameters of a write call (values already rendered to strings, as the
f-string `f"{key}={value}"` renders them): a non-empty parameter dict is joined
by hand as `key=value` pairs separated by `&` — deliberately avoiding percent
encoding — with the form-urlencoded Content-Type header; an empty dict sends no
body and no headers. -/
def postRequest (data : List (String × String)) :
    Option String × List (String × String) :=
  if data.isEmpty then (none, [])
  else
    (some (String.intercalate "&" (data.map fun kv => kv.1 ++ "=" ++ kv.2)),
     [("Content-Type", "application/x-www-form-urlencoded")])

/-- `DingzSessionV2.set_led`: the request path and body parameters (in
insertion order: `action`, then `color` and `mode` when a color is given).
State `none` toggles; a colour triple is rounded componentwise with Python
`round`, the hue wrapped with `% 360`, and rendered as `"H;S;V"`. -/
def set_led (state : Option Bool) (color : Option (ℚ × ℚ × ℚ)) :
    String × List (String × String) :=
  let kwargs : List (String × String) :=
    match color with
    | some (h, s, v) =>
      [("color", toString (pyround h % 360) ++ ";" ++ toString (pyround s)
          ++ ";" ++ toString (pyround v)),
       ("mode", "hsv")]
    | none => []
  let action := match state with
    | none => "toggle"
    | some true => "on"
    | some false => "off"
  ("/led/set", ("action", action) :: kwargs)

/-- `DingzSessionV2.set_blind_position`: the request path `/shade/{index}` and
the single body parameter `blind` holding the position rounded with Python
`round`. -/
def set_blind_position (index : ℤ) (position : ℚ) :
    String × List (String × String) :=
  ("/shade/" ++ toString index, [("blind", toString (pyround position))])

end DingzSessionV2

/-- Value of a Python expression that is either a `bool` or a `str`, as
produced by `a and b` short-circuit evaluation. -/
inductive PyValue where
  | bool (b : Bool)
  | str (s : String)
deriving Repr, DecidableEq

/-- `DimmerConfigV2.Feedback`. -/
structure DimmerConfigV2.Feedback where
  color : String
  brightness : ℤ
deriving Repr, DecidableEq

/-- `DimmerConfigV2.Light.Dimmer`. -/
structure DimmerConfigV2.Light.Dimmer where
  type : String
  use_last_value : Bool
deriving Repr, DecidableEq

/-- `DimmerConfigV2.Light`. -/
structure DimmerConfigV2.Light where
  dimmable : Bool
  dimmer : DimmerConfigV2.Light.Dimmer
deriving Repr, DecidableEq

/-- `DimmerConfigV2`: name, feedback and optional nested light
configuration. -/
structure DimmerConfigV2 where
  name : String
  feedback : DimmerConfigV2.Feedback
  light : Option DimmerConfigV2.Light := none
deriving Repr, DecidableEq

namespace DimmerConfigV2

/-- Property `DimmerConfigV2.dimmable`: `self.light is not None and
self.light.dimmable`; both operands are booleans, so the Python `and` yields a
boolean. -/
def dimmable (c : DimmerConfigV2) : Bool :=
  match c.light with
  | none => false
  | some l => l.dimmable

/-- Property `DimmerConfigV2.output`: `self.light is not None and
self.light.dimmer.type`.  Python `and` returns its first operand when that is
falsy, so with `light = None` the expression evaluates to the boolean `False`,
and otherwise to the string `self.light.dimmer.type` — whatever that string is,
including the empty one. -/
def output (c : DimmerConfigV2) : PyValue :=
  match c.light with
  | none => .bool false
  | some l => .str l.dimmer.type

/-- Property `DimmerConfigV2.available`: `bool(self.name)` — a Python string is
truthy exactly when it is non-empty.  The further check of the output type is
commented out in the source. -/
def available (c : DimmerConfigV2) : Bool :=
  !c.name.isEmpty

end DimmerConfigV2

/-- `SensorsV2.PIR`: a motion-sensor record. -/
structure SensorsV2.PIR where
  enabled : Bool
  motion : Bool
  mode : String
  light_off_timer : ℤ
  suspend_timer : ℤ
deriving Repr, DecidableEq

namespace SensorsV2.PIR

/-- `SensorsV2.PIR._from_json`: the generic field-by-field pass over a PIR
object (modelled from the spec for the `FromJSON` base class of `api.py`, which
is not under `src/`; the field list is from the source). -/
def _from_json (data : List (String × JSON)) : Except DecodeError SensorsV2.PIR := do
  let enabled ← getField data "enabled" JSON.asBool
  let motion ← getField data "motion" JSON.asBool
  let mode ← getField data "mode" JSON.asStr
  let light_off_timer ← getField data "light_off_timer" JSON.asInt
  let suspend_timer ← getField data "suspend_timer" JSON.asInt
  pure { enabled, motion, mode, light_off_timer, suspend_timer }

/-- `SensorsV2.PIR.from_json`: `None` input returns `None` immediately;
otherwise the input must be a dict (a copy of which is) passed to
`_from_json`; the logging wrapper re-raises any failure unchanged. -/
def from_json (data : JSON) : Except DecodeError (Option SensorsV2.PIR) :=
  match data with
  | .null => .ok none
  | .obj entries => some <$> _from_json entries
  | j => .error (.typeMismatch "dict" j)

/-- `SensorsV2.PIR.list_from_json` (modelled from the spec: `DecodeList` in
`api.py`, not under `src/`, maps `null` entries to absent-slot markers and
decodes all other entries individually, failing the whole list on any entry
failure). -/
def list_from_json (l : List JSON) : Except DecodeError (List (Option SensorsV2.PIR)) :=
  l.mapM from_json

end SensorsV2.PIR

/-- Python runtime errors raised by derived properties (`self.pirs[i]` on a
too-short list raises `IndexError`). -/
inductive PyError where
  | indexError
deriving Repr, DecidableEq

/-- `SensorsV2`: the sensors block of the device state.  Fields without a
Lean default are required keys in the JSON (those typed `Option` may still be
`null` on the wire); fields with default `none` may be absent entirely. -/
structure SensorsV2 where
  brightness : Option ℤ
  light_state : Option String
  light_state_lpf : Option String
  cpu_temperature : ℚ
  puck_temperature : Option ℚ
  fet_temperature : Option ℚ
  pirs : List (Option SensorsV2.PIR)
  input_state : Option Bool
  power_outputs : Option (List ℚ)
  room_temperature : Option ℚ := none
  uncompensated_temperature : Option ℚ := none
  temp_offset : Option ℚ := none
  light_off_timer : Option ℤ := none
  suspend_timer : Option ℤ := none
deriving Repr, DecidableEq

namespace SensorsV2

/-- Derived property `SensorsV2.person_present`: the motion field of
`pirs[0]` when that slot is not `None`, else of `pirs[1]`, else `None`;
indexing past the end of `pirs` raises `IndexError` exactly as Python list
indexing does. -/
def person_present (s : SensorsV2) : Except PyError (Option Bool) :=
  match s.pirs with
  | [] => .error .indexError
  | some p :: _ => .ok (some p.motion)
  | none :: [] => .error .indexError
  | none :: some p :: _ => .ok (some p.motion)
  | none :: none :: _ => .ok none

/-- One step of the in-place rewrite of the `power_outputs` list in
`SensorsV2._from_json`: `out["value"]` — the entry must be a dict
(`TypeError` otherwise) holding a `"value"` key (`KeyError` otherwise). -/
def flattenEntry : JSON → Except DecodeError JSON
  | .obj entries =>
    match lookupEntry entries "value" with
    | some v => Except.ok v
    | none => Except.error (DecodeError.missingKey "value")
  | j => Except.error (DecodeError.typeMismatch "dict" j)

/-- The in-place rewrite of the `power_outputs` list in `SensorsV2._from_json`:
each entry is replaced by its `"value"` member; any raising entry fails the
loop, which the hook logs and re-raises. -/
def flattenPowerOutputs : List JSON → Except DecodeError (List JSON)
  | [] => .ok []
  | out :: rest => do
    let v ← flattenEntry out
    let vs ← flattenPowerOutputs rest
    pure (v :: vs)

/-- The combined treatment of the raw `power_outputs` value: a `null` stays
absent; a truthy (non-empty) list is flattened in place by the hook; the
generic pass then decodes the value as an optional list of floats.  An empty
list is falsy, so the hook skips it and the generic pass decodes it to `[]`,
which coincides with flattening the empty list.  Any other value either fails
the flatten loop (not a list of dicts) or the generic type check. -/
def processPowerOutputs : JSON → Except DecodeError (Option (List ℚ))
  | .null => .ok none
  | .arr l => do
    let flat ← flattenPowerOutputs l
    some <$> flat.mapM JSON.asFloat
  | j => .error (.typeMismatch "list" j)

/-- `SensorsV2._from_json`: the preprocessing hook decodes the `pirs` list and
flattens `power_outputs`, then the generic field-by-field pass (modelled from
the spec for the `FromJSON` base in `api.py`, not under `src/`) extracts the
remaining fields. -/
def _from_json (data : List (String × JSON)) : Except DecodeError SensorsV2 := do
  let pirsRaw ← reqField data "pirs"
  let pirsArr ← pirsRaw.asList
  let pirs ← SensorsV2.PIR.list_from_json pirsArr
  let poRaw ← reqField data "power_outputs"
  let power_outputs ← processPowerOutputs poRaw
  let brightness ← getNullableField data "brightness" JSON.asInt
  let light_state ← getNullableField data "light_state" JSON.asStr
  let light_state_lpf ← getNullableField data "light_state_lpf" JSON.asStr
  let cpu_temperature ← getField data "cpu_temperature" JSON.asFloat
  let puck_temperature ← getNullableField data "puck_temperature" JSON.asFloat
  let fet_temperature ← getNullableField data "fet_temperature" JSON.asFloat
  let input_state ← getNullableField data "input_state" JSON.asBool
  let room_temperature ← getDefaultedField data "room_temperature" JSON.asFloat
  let uncompensated_temperature ← getDefaultedField data "uncompensated_temperature" JSON.asFloat
  let temp_offset ← getDefaultedField data "temp_offset" JSON.asFloat
  let light_off_timer ← getDefaultedField data "light_off_timer" JSON.asInt
  let suspend_timer ← getDefaultedField data "suspend_timer" JSON.asInt
  pure { brightness, light_state, light_state_lpf, cpu_temperature,
         puck_temperature, fet_temperature, pirs, input_state, power_outputs,
         room_temperature, uncompensated_temperature, temp_offset,
         light_off_timer, suspend_timer }

/-- `SensorsV2.from_json`: the inherited entry point copies the raw dict and
runs `_from_json`; a non-dict input fails. -/
def from_json (data : JSON) : Except DecodeError SensorsV2 :=
  match data with
  | .obj entries => _from_json entries
  | j => .error (.typeMismatch "dict" j)

end SensorsV2

/-- Modelled from the spec: `TempComp` and its decoder are defined in `api.py`,
which is not among the sources here.  The spec says only that the `temp_comp`
value is decoded "through a dedicated sub-decoder", so the record is modelled
as carrying the raw object it was decoded from; like every decoder, it rejects
a value that is not an object. -/
structure TempComp where
  entries : List (String × JSON)

/-- Modelled from the spec: the decoder of `TempComp` from `api.py` (not under
`src/`). -/
def TempComp.from_json : JSON → Except DecodeError TempComp
  | .obj entries => .ok ⟨entries⟩
  | j => .error (.typeMismatch "TempComp" j)

/-- `SystemConfigV2.Time`: hour and minute of a sunrise/sunset time. -/
structure SystemConfigV2.Time where
  hour : ℤ
  minute : ℤ

/-- `SystemConfigV2.Time.from_json` (generic pass modelled from the spec for
the `FromJSON` base in `api.py`, not under `src/`; fields from the source). -/
def SystemConfigV2.Time.from_json (j : JSON) : Except DecodeError SystemConfigV2.Time :=
  match j with
  | .obj data => do
    let hour ← getField data "hour" JSON.asInt
    let minute ← getField data "minute" JSON.asInt
    pure { hour, minute }
  | j => .error (.typeMismatch "dict" j)

/-- `SystemConfigV2.DynLight.SunOffset`. -/
structure SystemConfigV2.DynLight.SunOffset where
  day : ℤ
  twilight : ℤ
  night : ℤ

/-- `SystemConfigV2.DynLight.SunOffset.from_json`. -/
def SystemConfigV2.DynLight.SunOffset.from_json (j : JSON) :
    Except DecodeError SystemConfigV2.DynLight.SunOffset :=
  match j with
  | .obj data => do
    let day ← getField data "day" JSON.asInt
    let twilight ← getField data "twilight" JSON.asInt
    let night ← getField data "night" JSON.asInt
    pure { day, twilight, night }
  | j => .error (.typeMismatch "dict" j)

/-- `SystemConfigV2.DynLight`: its `_from_json` hook first decodes the
`sun_offset` sub-object (`data["sun_offset"]` raises `KeyError` when the key
is absent), then the generic pass extracts the remaining fields. -/
structure SystemConfigV2.DynLight where
  enable : Bool
  phases : ℤ
  source : String
  sun_offset : SystemConfigV2.DynLight.SunOffset

/-- `SystemConfigV2.DynLight.from_json`. -/
def SystemConfigV2.DynLight.from_json (j : JSON) :
    Except DecodeError SystemConfigV2.DynLight :=
  match j with
  | .obj data => do
    let sunOffsetRaw ← reqField data "sun_offset"
    let sun_offset ← SystemConfigV2.DynLight.SunOffset.from_json sunOffsetRaw
    let enable ← getField data "enable" JSON.asBool
    let phases ← getField data "phases" JSON.asInt
    let source ← getField data "source" JSON.asStr
    pure { enable, phases, source, sun_offset }
  | j => .error (.typeMismatch "dict" j)

/-- `SystemConfigV2`: the device system configuration.  Field names and types
follow the source dataclass (`id` and `dingz_name` really are declared `bool`
there); fields with a Lean default of `none` are the dataclass fields defaulted
to `None`. -/
structure SystemConfigV2 where
  allow_reset : Bool
  allow_wps : Bool
  allow_reboot : Bool
  allow_remote_reboot : Bool
  protected_status : Bool
  id : Bool
  lat : String
  long : String
  wifi_ps : Bool
  tzid : ℤ
  origin : Bool
  upgrade_blink : Bool
  reboot_blink : Bool
  dingz_name : Bool
  room_name : String
  temp_offset : ℤ
  time : String
  system_status : String
  fet_offset : ℤ
  cpu_offset : ℤ
  token : Option String := none
  mdns_search_period : Option ℤ := none
  groups : Option (List Bool) := none
  temp_comp : Option TempComp := none
  dyn_light : Option SystemConfigV2.DynLight := none
  sunrise : Option SystemConfigV2.Time := none
  sunset : Option SystemConfigV2.Time := none

namespace SystemConfigV2

/-- Decode of the `groups` list of booleans. -/
def asBoolList : JSON → Except DecodeError (List Bool)
  | .arr l => l.mapM JSON.asBool
  | j => .error (.typeMismatch "list" j)

/-- The `try: raw_temp_comp = data.pop("temp_comp") except KeyError: pass
else: ...` block of `SystemConfigV2._from_json`: when the key is absent the
field keeps its `None` default; when present, its value is routed through the
dedicated `TempComp` sub-decoder. -/
def decodeTempComp (data : List (String × JSON)) :
    Except DecodeError (Option TempComp) :=
  match lookupEntry data "temp_comp" with
  | none => pure none
  | some v => some <$> TempComp.from_json v

/-- `SystemConfigV2._from_json`: the hook decodes `sunrise`, `sunset` and
`dyn_light` in place (each `data[key]` raises `KeyError` when the key is
absent), pops `temp_comp` when — and only when — the key is present, routing
it through `TempComp.from_json`, and then the generic field-by-field pass
(modelled from the spec for the `FromJSON` base in `api.py`, not under `src/`)
extracts the remaining fields. -/
def _from_json (data : List (String × JSON)) : Except DecodeError SystemConfigV2 := do
  let sunriseRaw ← reqField data "sunrise"
  let sunrise ← SystemConfigV2.Time.from_json sunriseRaw
  let sunsetRaw ← reqField data "sunset"
  let sunset ← SystemConfigV2.Time.from_json sunsetRaw
  let dynLightRaw ← reqField data "dyn_light"
  let dyn_light ← SystemConfigV2.DynLight.from_json dynLightRaw
  let temp_comp ← decodeTempComp data
  let allow_reset ← getField data "allow_reset" JSON.asBool
  let allow_wps ← getField data "allow_wps" JSON.asBool
  let allow_reboot ← getField data "allow_reboot" JSON.asBool
  let allow_remote_reboot ← getField data "allow_remote_reboot" JSON.asBool
  let protected_status ← getField data "protected_status" JSON.asBool
  let id ← getField data "id" JSON.asBool
  let lat ← getField data "lat" JSON.asStr
  let long ← getField data "long" JSON.asStr
  let wifi_ps ← getField data "wifi_ps" JSON.asBool
  let tzid ← getField data "tzid" JSON.asInt
  let origin ← getField data "origin" JSON.asBool
  let upgrade_blink ← getField data "upgrade_blink" JSON.asBool
  let reboot_blink ← getField data "reboot_blink" JSON.asBool
  let dingz_name ← getField data "dingz_name" JSON.asBool
  let room_name ← getField data "room_name" JSON.asStr
  let temp_offset ← getField data "temp_offset" JSON.asInt
  let time ← getField data "time" JSON.asStr
  let system_status ← getField data "system_status" JSON.asStr
  let fet_offset ← getField data "fet_offset" JSON.asInt
  let cpu_offset ← getField data "cpu_offset" JSON.asInt
  let token ← getDefaultedField data "token" JSON.asStr
  let mdns_search_period ← getDefaultedField data "mdns_search_period" JSON.asInt
  let groups ← getDefaultedField data "groups" asBoolList
  pure { allow_reset, allow_wps, allow_reboot, allow_remote_reboot,
         protected_status, id, lat, long, wifi_ps, tzid, origin,
         upgrade_blink, reboot_blink, dingz_name, room_name, temp_offset,
         time, system_status, fet_offset, cpu_offset, token,
         mdns_search_period, groups, temp_comp,
         sunrise := some sunrise, sunset := some sunset,
         dyn_light := some dyn_light }

/-- `SystemConfigV2.from_json`: the inherited entry point copies the raw dict
and runs `_from_json`; a non-dict input fails. -/
def from_json (data : JSON) : Except DecodeError SystemConfigV2 :=
  match data with
  | .obj entries => _from_json entries
  | j => .error (.typeMismatch "dict" j)

end SystemConfigV2

/-- Modelled from the spec: the `Device` record and its decoder are defined in
`api.py`, which is not among the sources here; the spec does not give its
field list, so the record is modelled as carrying the raw object it was
decoded from. -/
structure Device where
  entries : List (String × JSON)

/-- Modelled from the spec: `Device.from_json` from `api.py` (not under
`src/`). -/
def Device.from_json : JSON → Except DecodeError Device
  | .obj entries => .ok ⟨entries⟩
  | j => .error (.typeMismatch "Device" j)

/-- Failures of the `device` read operation: the re-raised `StopIteration` on
an empty response mapping — the `EmptyResponseError` of the spec — or a decode
failure of the single device entry. -/
inductive DeviceCallError where
  | emptyResponse
  | decode (e : DecodeError)

namespace DingzSessionV2

/-- `DingzSessionV2.device`, applied to the parsed JSON response mapping of
`GET /device`: a warning is logged when the mapping has more than one entry
(the returned flag), then the first value in insertion order is decoded; on an
empty mapping `next(iter(raw.values()))` raises `StopIteration`, which is
logged and re-raised. -/
def device (raw : List (String × JSON)) : Bool × Except DeviceCallError Device :=
  let warned := decide (1 < raw.length)
  match raw with
  | [] => (warned, .error .emptyResponse)
  | (_, v) :: _ => (warned, (Device.from_json v).mapError .decode)

end DingzSessionV2

/-- A complete, valid raw system-config mapping that carries no `temp_comp`
key (concrete decode input). -/
def systemConfigSample : List (String × JSON) :=
  [("sunrise", JSON.obj [("hour", JSON.num (mkRat 6 1)), ("minute", JSON.num (mkRat 30 1))]),
   ("sunset", JSON.obj [("hour", JSON.num (mkRat 18 1)), ("minute", JSON.num (mkRat 45 1))]),
   ("dyn_light", JSON.obj
     [("enable", JSON.bool true), ("phases", JSON.num (mkRat 2 1)),
      ("source", JSON.str "sun"),
      ("sun_offset", JSON.obj
        [("day", JSON.num (mkRat 0 1)), ("twilight", JSON.num (mkRat 10 1)),
         ("night", JSON.num (mkRat 20 1))])]),
   ("allow_reset", JSON.bool true), ("allow_wps", JSON.bool false),
   ("allow_reboot", JSON.bool true), ("allow_remote_reboot", JSON.bool false),
   ("protected_status", JSON.bool false), ("id", JSON.bool false),
   ("lat", JSON.str "47.3"), ("long", JSON.str "8.5"),
   ("wifi_ps", JSON.bool false), ("tzid", JSON.num (mkRat 1 1)),
   ("origin", JSON.bool true), ("upgrade_blink", JSON.bool true),
   ("reboot_blink", JSON.bool false), ("dingz_name", JSON.bool true),
   ("room_name", JSON.str "living room"), ("temp_offset", JSON.num (mkRat 0 1)),
   ("time", JSON.str "2024-01-01 12:00:00"), ("system_status", JSON.str "OK"),
   ("fet_offset", JSON.num (mkRat 3 1)), ("cpu_offset", JSON.num (mkRat 5 1))]

/-- The record `systemConfigSample` decodes to. -/
def systemConfigSampleDecoded : SystemConfigV2 :=
  { allow_reset := true, allow_wps := false, allow_reboot := true,
    allow_remote_reboot := false, protected_status := false, id := false,
    lat := "47.3", long := "8.5", wifi_ps := false, tzid := 1,
    origin := true, upgrade_blink := true, reboot_blink := false,
    dingz_name := true, room_name := "living room", temp_offset := 0,
    time := "2024-01-01 12:00:00", system_status := "OK", fet_offset := 3,
    cpu_offset := 5, token := none, mdns_search_period := none, groups := none,
    temp_comp := none,
    dyn_light := some ⟨true, 2, "sun", ⟨0, 10, 20⟩⟩,
    sunrise := some ⟨6, 30⟩, sunset := some ⟨18, 45⟩ }

/-- A complete, valid raw sensors mapping whose `power_outputs` list holds two
wrapper objects (concrete decode input). -/
def sensorsSample : List (String × JSON) :=
  [("pirs", JSON.arr
     [JSON.null,
      JSON.obj [("enabled", JSON.bool true), ("motion", JSON.bool true),
                ("mode", JSON.str "idle"),
                ("light_off_timer", JSON.num (mkRat 60 1)),
                ("suspend_timer", JSON.num (mkRat 0 1))]]),
   ("power_outputs", JSON.arr
     [JSON.obj [("value", JSON.num (mkRat 1 1))],
      JSON.obj [("value", JSON.num (mkRat 5 2))]]),
   ("brightness", JSON.num (mkRat 100 1)),
   ("light_state", JSON.str "day"),
   ("light_state_lpf", JSON.null),
   ("cpu_temperature", JSON.num (mkRat 43 2)),
   ("puck_temperature", JSON.null),
   ("fet_temperature", JSON.num (mkRat 35 1)),
   ("input_state", JSON.null),
   ("room_temperature", JSON.num (mkRat 22 1))]

/-- The record `sensorsSample` decodes to. -/
def sensorsSampleDecoded : SensorsV2 :=
  { brightness := some 100, light_state := some "day", light_state_lpf := none,
    cpu_temperature := mkRat 43 2, puck_temperature := none,
    fet_temperature := some (mkRat 35 1),
    pirs := [none, some ⟨true, true, "idle", 60, 0⟩],
    input_state := none,
    power_outputs := some [mkRat 1 1, mkRat 5 2],
    room_temperature := some (mkRat 22 1) }

/-- A successful `Except` bind splits into a successful first step and a
successful continuation. -/
theorem exceptBind_ok {ε α β : Type} {x : Except ε α} {f : α → Except ε β} {b : β}
    (h : x >>= f = Except.ok b) : ∃ a, x = Except.ok a ∧ f a = Except.ok b := by
  cases x with
  | error e => simp [Bind.bind, Except.bind] at h
  | ok a => exact ⟨a, rfl, h⟩

/-- C1: `DingzSessionV2.device` on a response mapping with zero entries fails
with the empty-response error; on a mapping with two entries it emits the
more-than-one-device warning, decodes the first entry in insertion order, and
does not itself raise: when the entry decodes, the call returns it. -/
theorem device_zero_and_two_entries (k1 k2 : String) (v1 v2 : JSON) :
    DingzSessionV2.device [] = (false, Except.error DeviceCallError.emptyResponse)
    ∧ DingzSessionV2.device [(k1, v1), (k2, v2)]
      = (true, (Device.from_json v1).mapError DeviceCallError.decode)
    ∧ (∀ d, Device.from_json v1 = Except.ok d →
        (DingzSessionV2.device [(k1, v1), (k2, v2)]).2 = Except.ok d) := by
  refine ⟨rfl, rfl, fun d h => ?_⟩
  simp [DingzSessionV2.device, h, Except.mapError]

/-- Witness for C1 at a concrete two-entry response. -/
theorem device_zero_and_two_entries_witness :
    (DingzSessionV2.device [("a", JSON.obj []), ("b", JSON.null)]).2
      = Except.ok ⟨[]⟩ :=
  (device_zero_and_two_entries "a" "b" (JSON.obj []) JSON.null).2.2 ⟨[]⟩ rfl

/-- C2: `DingzSessionV2.set_led` with `state = None` and a colour triple sends
`action=toggle` together with the colour rounded componentwise (Python round),
the hue wrapped `% 360`, rendered `"H;S;V"` under `color` with `mode=hsv`; at
the concrete call `set_led(state=None, color=(400, 50.6, 100.4))` —
`50.6 = 253/5` and `100.4 = 502/5` — the parameters are exactly
`action=toggle`, `color=40;51;100`, `mode=hsv`; a boolean state yields action
`on`/`off`. -/
theorem set_led_params (h s v : ℚ) :
    DingzSessionV2.set_led none (some (h, s, v))
      = ("/led/set",
         [("action", "toggle"),
          ("color", toString (pyround h % 360) ++ ";" ++ toString (pyround s)
             ++ ";" ++ toString (pyround v)),
          ("mode", "hsv")])
    ∧ DingzSessionV2.set_led none (some (mkRat 400 1, mkRat 253 5, mkRat 502 5))
      = ("/led/set", [("action", "toggle"), ("color", "40;51;100"), ("mode", "hsv")])
    ∧ (∀ b : Bool, DingzSessionV2.set_led (some b) none
        = ("/led/set", [("action", if b then "on" else "off")])) := by
  refine ⟨rfl, by decide, fun b => ?_⟩
  cases b <;> rfl

/-- C3: `set_blind_position(2, 57.5)` posts to `/shade/2` with body exactly
`blind=58`: the position is rounded by Python `round`, which rounds half to
even (so `57.5` goes up to the even `58`), and the `=` separator appears
verbatim in the body, not percent-encoded. -/
theorem set_blind_position_body :
    (57.5 : ℚ) = mkRat 115 2
    ∧ DingzSessionV2.set_blind_position 2 (mkRat 115 2)
      = ("/shade/2", [("blind", "58")])
    ∧ DingzSessionV2.postRequest [("blind", "58")]
      = (some "blind=58", [("Content-Type", "application/x-www-form-urlencoded")])
    ∧ pyround (mkRat 115 2) = 58 := by
  refine ⟨by norm_num [mkRat, Rat.normalize], by decide, by decide, by decide⟩

/-- C4: `DingzSessionV2.__post_request` with a non-empty parameter set joins
the `key=value` pairs with `&` — no percent-encoding of keys or values — and
sends the form-urlencoded Content-Type header; with an empty parameter set it
sends no body and no headers. -/
theorem post_request_encoding (data : List (String × String)) :
    (data ≠ [] → DingzSessionV2.postRequest data
      = (some (String.intercalate "&" (data.map fun kv => kv.1 ++ "=" ++ kv.2)),
         [("Content-Type", "application/x-www-form-urlencoded")]))
    ∧ (data = [] → DingzSessionV2.postRequest data = (none, [])) := by
  constructor
  · intro hne
    cases data with
    | nil => exact absurd rfl hne
    | cons kv rest => rfl
  · intro he
    subst he
    rfl

/-- Witness for C4 at a concrete two-parameter body. -/
theorem post_request_encoding_witness :
    DingzSessionV2.postRequest [("action", "toggle"), ("mode", "hsv")]
      = (some "action=toggle&mode=hsv",
         [("Content-Type", "application/x-www-form-urlencoded")]) :=
  (post_request_encoding [("action", "toggle"), ("mode", "hsv")]).1 (by decide)

/-- C6: `SensorsV2.PIR.from_json` returns the absent marker immediately on a
`null` input, and otherwise delegates to the full PIR decode of the input
mapping, returning the decoded record on success. -/
theorem pir_from_json_optional :
    SensorsV2.PIR.from_json JSON.null = Except.ok none
    ∧ (∀ entries p, SensorsV2.PIR._from_json entries = Except.ok p →
        SensorsV2.PIR.from_json (JSON.obj entries) = Except.ok (some p)) := by
  refine ⟨rfl, fun entries p h => ?_⟩
  simp [SensorsV2.PIR.from_json, h]

/-- Witness for C6 at a concrete PIR object. -/
theorem pir_from_json_optional_witness :
    SensorsV2.PIR.from_json (JSON.obj
      [("enabled", JSON.bool true), ("motion", JSON.bool false),
       ("mode", JSON.str "idle"), ("light_off_timer", JSON.num (mkRat 5 1)),
       ("suspend_timer", JSON.num (mkRat 0 1))])
      = Except.ok (some ⟨true, false, "idle", 5, 0⟩) :=
  pir_from_json_optional.2 _ ⟨true, false, "idle", 5, 0⟩ rfl

/-- C8 counterexample: a dimmer config with a non-empty name and no nested
light configuration is `available` — `available` is `bool(self.name)` alone
(the output check is commented out in the source), so the claimed equivalence
with "name present and light non-null" fails at this record. -/
theorem available_counterexample :
    ¬ ((DimmerConfigV2.mk "dimmer" ⟨"red", 0⟩ none).available = true
        ↔ ((DimmerConfigV2.mk "dimmer" ⟨"red", 0⟩ none).name ≠ ""
            ∧ (DimmerConfigV2.mk "dimmer" ⟨"red", 0⟩ none).light ≠ none)) := by
  decide

/-- C8 (amended): `DimmerConfigV2.available` is computed on each access and is
true exactly when the name of the record is non-empty; the nested light
configuration is not consulted. -/
theorem available_iff_name_nonempty (c : DimmerConfigV2) :
    c.available = true ↔ c.name ≠ "" := by
  simp [DimmerConfigV2.available, ← String.isEmpty_iff]

/-- C9: `DimmerConfigV2.output` evaluates to the boolean `False` — not a
string — whenever `light` is absent, despite the declared `str` return type;
when `light` is present it is the string `light.dimmer.type`. -/
theorem dimmer_output_bool_or_type (c : DimmerConfigV2) :
    (c.light = none → c.output = PyValue.bool false)
    ∧ (∀ l, c.light = some l → c.output = PyValue.str l.dimmer.type) := by
  refine ⟨fun h => ?_, fun l h => ?_⟩ <;> simp [DimmerConfigV2.output, h]

/-- Witness for C9 at two concrete dimmer configs, one without and one with a
light configuration. -/
theorem dimmer_output_bool_or_type_witness :
    (DimmerConfigV2.mk "d0" ⟨"red", 0⟩ none).output = PyValue.bool false
    ∧ (DimmerConfigV2.mk "d1" ⟨"red", 0⟩ (some ⟨true, ⟨"halogen", false⟩⟩)).output
      = PyValue.str "halogen" :=
  ⟨(dimmer_output_bool_or_type _).1 rfl,
   (dimmer_output_bool_or_type _).2 ⟨true, ⟨"halogen", false⟩⟩ rfl⟩

/-- C10: for a `SensorsV2` whose `pirs` list has at least two entries,
`person_present` returns the motion of `pirs[0]` when that slot is present,
else the motion of `pirs[1]` when that slot is present, else `None`; the tail
beyond index 1 is universally quantified, so it never influences the result. -/
theorem person_present_first_two (s : SensorsV2) (p0 p1 : Option SensorsV2.PIR)
    (rest : List (Option SensorsV2.PIR)) (h : s.pirs = p0 :: p1 :: rest) :
    s.person_present = Except.ok ((p0 <|> p1).map SensorsV2.PIR.motion) := by
  unfold SensorsV2.person_present
  rw [h]
  cases p0 with
  | some p => rfl
  | none => cases p1 <;> rfl

/-- A successful `pure` in `Except` pins the value. -/
theorem except_pure_eq_ok {ε α : Type} {a b : α}
    (h : (pure a : Except ε α) = Except.ok b) : a = b :=
  Except.ok.inj h

/-- A successful `Except` map splits into a successful argument and the mapped
value. -/
theorem except_map_ok {ε : Type} {α β : Type} {f : α → β} {x : Except ε α}
    {b : β} (h : f <$> x = Except.ok b) : ∃ a, x = Except.ok a ∧ f a = b := by
  cases x with
  | error e => exact absurd h (by simp [Functor.map, Except.map])
  | ok a =>
    refine ⟨a, rfl, ?_⟩
    have hh : (Except.ok (f a) : Except ε β) = Except.ok b := h
    exact Except.ok.inj hh

/-- C5: a `SystemConfigV2` decode of a raw mapping without a `temp_comp` key
yields `temp_comp = none` rather than an error (the concrete witness below
decodes such a mapping successfully); when the key is present, its value is
popped, decoded through the dedicated `TempComp` sub-decoder, and stored in
the `temp_comp` field. -/
theorem system_config_temp_comp (data : List (String × JSON))
    (cfg : SystemConfigV2)
    (hok : SystemConfigV2._from_json data = Except.ok cfg) :
    (lookupEntry data "temp_comp" = none → cfg.temp_comp = none)
    ∧ (∀ v, lookupEntry data "temp_comp" = some v →
        ∃ tc, TempComp.from_json v = Except.ok tc ∧ cfg.temp_comp = some tc) := by
  unfold SystemConfigV2._from_json at hok
  obtain ⟨a1, h1, hok⟩ := exceptBind_ok hok
  obtain ⟨a2, h2, hok⟩ := exceptBind_ok hok
  obtain ⟨a3, h3, hok⟩ := exceptBind_ok hok
  obtain ⟨a4, h4, hok⟩ := exceptBind_ok hok
  obtain ⟨a5, h5, hok⟩ := exceptBind_ok hok
  obtain ⟨a6, h6, hok⟩ := exceptBind_ok hok
  obtain ⟨copt, hc, hok⟩ := exceptBind_ok hok
  obtain ⟨b1, g1, hok⟩ := exceptBind_ok hok
  obtain ⟨b2, g2, hok⟩ := exceptBind_ok hok
  obtain ⟨b3, g3, hok⟩ := exceptBind_ok hok
  obtain ⟨b4, g4, hok⟩ := exceptBind_ok hok
  obtain ⟨b5, g5, hok⟩ := exceptBind_ok hok
  obtain ⟨b6, g6, hok⟩ := exceptBind_ok hok
  obtain ⟨b7, g7, hok⟩ := exceptBind_ok hok
  obtain ⟨b8, g8, hok⟩ := exceptBind_ok hok
  obtain ⟨b9, g9, hok⟩ := exceptBind_ok hok
  obtain ⟨b10, g10, hok⟩ := exceptBind_ok hok
  obtain ⟨b11, g11, hok⟩ := exceptBind_ok hok
  obtain ⟨b12, g12, hok⟩ := exceptBind_ok hok
  obtain ⟨b13, g13, hok⟩ := exceptBind_ok hok
  obtain ⟨b14, g14, hok⟩ := exceptBind_ok hok
  obtain ⟨b15, g15, hok⟩ := exceptBind_ok hok
  obtain ⟨b16, g16, hok⟩ := exceptBind_ok hok
  obtain ⟨b17, g17, hok⟩ := exceptBind_ok hok
  obtain ⟨b18, g18, hok⟩ := exceptBind_ok hok
  obtain ⟨b19, g19, hok⟩ := exceptBind_ok hok
  obtain ⟨b20, g20, hok⟩ := exceptBind_ok hok
  obtain ⟨b21, g21, hok⟩ := exceptBind_ok hok
  obtain ⟨b22, g22, hok⟩ := exceptBind_ok hok
  obtain ⟨b23, g23, hok⟩ := exceptBind_ok hok
  have hrec := except_pure_eq_ok hok
  subst hrec
  unfold SystemConfigV2.decodeTempComp at hc
  constructor
  · intro habs
    rw [habs] at hc
    exact (except_pure_eq_ok hc).symm ▸ rfl
  · intro v hv
    rw [hv] at hc
    obtain ⟨tc, htc, htcv⟩ := except_map_ok hc
    exact ⟨tc, htc, by simp [← htcv]⟩

/-- Witness for C5: the concrete system-config mapping without `temp_comp`
decodes successfully and its `temp_comp` field is absent. -/
theorem system_config_temp_comp_witness :
    SystemConfigV2._from_json systemConfigSample
      = Except.ok systemConfigSampleDecoded
    ∧ systemConfigSampleDecoded.temp_comp = none :=
  ⟨rfl, (system_config_temp_comp systemConfigSample systemConfigSampleDecoded
      rfl).1 rfl⟩

/-- Flattening a list of `{"value": x}` wrapper objects yields exactly the
wrapped values, preserving length and order. -/
theorem flatten_wrapped (qs : List ℚ) :
    SensorsV2.flattenPowerOutputs (qs.map fun q => JSON.obj [("value", JSON.num q)])
      = Except.ok (qs.map JSON.num) := by
  induction qs with
  | nil => rfl
  | cons q rest ih =>
    show (SensorsV2.flattenPowerOutputs
        (rest.map fun q => JSON.obj [("value", JSON.num q)])
        >>= fun vs => pure (JSON.num q :: vs)) = _
    rw [ih]
    rfl

/-- Decoding a list of JSON numbers as floats recovers the numbers. -/
theorem mapM_asFloat_nums (qs : List ℚ) :
    (qs.map JSON.num).mapM JSON.asFloat = Except.ok qs := by
  induction qs with
  | nil => rfl
  | cons q rest ih =>
    rw [List.map_cons, List.mapM_cons, ih]
    rfl

/-- The full `power_outputs` treatment on a list of wrapper objects succeeds
with the flattened scalars. -/
theorem process_wrapped (qs : List ℚ) :
    SensorsV2.processPowerOutputs
      (JSON.arr (qs.map fun q => JSON.obj [("value", JSON.num q)]))
      = Except.ok (some qs) := by
  show (SensorsV2.flattenPowerOutputs
      (qs.map fun q => JSON.obj [("value", JSON.num q)])
      >>= fun flat => some <$> flat.mapM JSON.asFloat) = _
  rw [flatten_wrapped]
  show (some <$> (qs.map JSON.num).mapM JSON.asFloat) = _
  rw [mapM_asFloat_nums]
  rfl

/-- Flattening a list that contains an object without a `"value"` key fails. -/
theorem flatten_error_of_missing {l : List JSON} {entries : List (String × JSON)}
    (hmem : JSON.obj entries ∈ l) (hnone : lookupEntry entries "value" = none) :
    ∃ e, SensorsV2.flattenPowerOutputs l = Except.error e := by
  induction l with
  | nil => cases hmem
  | cons a rest ih =>
    rcases List.mem_cons.mp hmem with ha | hmem2
    · refine ⟨DecodeError.missingKey "value", ?_⟩
      subst ha
      show ((match lookupEntry entries "value" with
            | some v => Except.ok v
            | none => Except.error (DecodeError.missingKey "value"))
          >>= fun v => SensorsV2.flattenPowerOutputs rest
          >>= fun vs => pure (v :: vs)) = _
      rw [hnone]
      rfl
    · cases hfe : SensorsV2.flattenEntry a with
      | error e =>
        refine ⟨e, ?_⟩
        show (SensorsV2.flattenEntry a
            >>= fun v => SensorsV2.flattenPowerOutputs rest
            >>= fun vs => pure (v :: vs)) = _
        rw [hfe]
        rfl
      | ok v =>
        obtain ⟨e, he⟩ := ih hmem2
        refine ⟨e, ?_⟩
        show (SensorsV2.flattenEntry a
            >>= fun v => SensorsV2.flattenPowerOutputs rest
            >>= fun vs => pure (v :: vs)) = _
        rw [hfe, he]
        rfl

/-- The full `power_outputs` treatment fails on a list that contains an object
without a `"value"` key. -/
theorem process_error_of_missing {l : List JSON} {entries : List (String × JSON)}
    (hmem : JSON.obj entries ∈ l) (hnone : lookupEntry entries "value" = none) :
    ∃ e, SensorsV2.processPowerOutputs (JSON.arr l) = Except.error e := by
  obtain ⟨e, he⟩ := flatten_error_of_missing hmem hnone
  refine ⟨e, ?_⟩
  show (SensorsV2.flattenPowerOutputs l
      >>= fun flat => some <$> flat.mapM JSON.asFloat) = _
  rw [he]
  rfl

/-- C7: during a `SensorsV2` decode, a non-empty `power_outputs` list of
single-key wrapper objects `{"value": x}` is flattened to the scalars `x`,
preserving length and order (the decoded field is exactly the wrapped list);
and when any entry lacks the `"value"` key, the whole decode fails rather than
producing a partially flattened result value. -/
theorem sensors_power_outputs_flatten :
    (∀ (qs : List ℚ) (data : List (String × JSON)) (cfg : SensorsV2),
      qs ≠ [] →
      lookupEntry data "power_outputs"
        = some (JSON.arr (qs.map fun q => JSON.obj [("value", JSON.num q)])) →
      SensorsV2._from_json data = Except.ok cfg →
      cfg.power_outputs = some qs)
    ∧ (∀ (data : List (String × JSON)) (l : List JSON)
        (entries : List (String × JSON)),
      lookupEntry data "power_outputs" = some (JSON.arr l) →
      JSON.obj entries ∈ l →
      lookupEntry entries "value" = none →
      ∀ cfg, SensorsV2._from_json data ≠ Except.ok cfg) := by
  constructor
  · intro qs data cfg hne hlook hok
    unfold SensorsV2._from_json at hok
    obtain ⟨pirsRaw, h1, hok⟩ := exceptBind_ok hok
    obtain ⟨pirsArr, h2, hok⟩ := exceptBind_ok hok
    obtain ⟨pirs, h3, hok⟩ := exceptBind_ok hok
    obtain ⟨poRaw, h4, hok⟩ := exceptBind_ok hok
    obtain ⟨po, h5, hok⟩ := exceptBind_ok hok
    obtain ⟨b1, g1, hok⟩ := exceptBind_ok hok
    obtain ⟨b2, g2, hok⟩ := exceptBind_ok hok
    obtain ⟨b3, g3, hok⟩ := exceptBind_ok hok
    obtain ⟨b4, g4, hok⟩ := exceptBind_ok hok
    obtain ⟨b5, g5, hok⟩ := exceptBind_ok hok
    obtain ⟨b6, g6, hok⟩ := exceptBind_ok hok
    obtain ⟨b7, g7, hok⟩ := exceptBind_ok hok
    obtain ⟨b8, g8, hok⟩ := exceptBind_ok hok
    obtain ⟨b9, g9, hok⟩ := exceptBind_ok hok
    obtain ⟨b10, g10, hok⟩ := exceptBind_ok hok
    obtain ⟨b11, g11, hok⟩ := exceptBind_ok hok
    obtain ⟨b12, g12, hok⟩ := exceptBind_ok hok
    have hrec := except_pure_eq_ok hok
    subst hrec
    unfold reqField at h4
    rw [hlook] at h4
    have hpo := Except.ok.inj h4
    subst hpo
    rw [process_wrapped] at h5
    exact (Except.ok.inj h5).symm
  · intro data l entries hlook hmem hval cfg hok
    unfold SensorsV2._from_json at hok
    obtain ⟨pirsRaw, h1, hok⟩ := exceptBind_ok hok
    obtain ⟨pirsArr, h2, hok⟩ := exceptBind_ok hok
    obtain ⟨pirs, h3, hok⟩ := exceptBind_ok hok
    obtain ⟨poRaw, h4, hok⟩ := exceptBind_ok hok
    obtain ⟨po, h5, hok⟩ := exceptBind_ok hok
    unfold reqField at h4
    rw [hlook] at h4
    have hpo := Except.ok.inj h4
    subst hpo
    obtain ⟨e, he⟩ := process_error_of_missing hmem hval
    rw [he] at h5
    exact Except.noConfusion h5

/-- Witness for C7: the concrete sensors mapping with two wrapped power
outputs decodes successfully, its `power_outputs` field holding exactly the
two scalars in order. -/
theorem sensors_power_outputs_flatten_witness :
    SensorsV2._from_json sensorsSample = Except.ok sensorsSampleDecoded
    ∧ sensorsSampleDecoded.power_outputs = some [mkRat 1 1, mkRat 5 2] :=
  ⟨rfl, sensors_power_outputs_flatten.1 [mkRat 1 1, mkRat 5 2] sensorsSample
      sensorsSampleDecoded (by decide) rfl rfl⟩

/-- Witness for C10: a concrete sensors record with three PIR slots — the
first absent, the second and third present with opposite motion readings —
reports the motion of the second slot, ignoring the third. -/
theorem person_present_first_two_witness :
    (SensorsV2.mk none none none (mkRat 21 1) none none
        [none, some ⟨true, true, "idle", 0, 0⟩, some ⟨true, false, "idle", 0, 0⟩]
        none none none none none none none).person_present
      = Except.ok (some true) :=
  person_present_first_two _ none (some ⟨true, true, "idle", 0, 0⟩)
    [some ⟨true, false, "idle", 0, 0⟩] rfl
